import Mathlib

/-!
Shallow embedding of `src/probe_plugin.c` (grblHAL probe-protection plugin).

Pure data is translated directly; the C module's static mutable state is
passed explicitly as records, and side effects (realtime-command enqueues,
report messages, delays, forwarding to previously installed handlers) are
returned as explicit outcome fields.
-/

namespace ProbePlugin

/-- Realtime commands the plugin enqueues via grbl.enqueue_realtime_command. -/
inductive RTCommand where
  | reset                  -- CMD_RESET (emergency stop)
  | probeConnectedToggle   -- CMD_PROBE_CONNECTED_TOGGLE
deriving DecidableEq

/-- Message severity used by report_message. -/
inductive Severity where
  | info
  | warning
deriving DecidableEq

/-- A reported message (report_message call). -/
structure Msg where
  text : String
  severity : Severity
deriving DecidableEq

/-- Identity of a stepper pulse-start handler (function pointer).
`onPulseStart` is this plugin's guard; `prev n` stands for any other
handler (e.g. the one installed by the core before the plugin). -/
inductive StepHandler where
  | onPulseStart
  | prev (n : Nat)
deriving DecidableEq

/-- Identity of a probe-state provider (hal.probe.get_state function pointer).
`probeGetState` is this plugin's redirected provider; `prev n` any other. -/
inductive ProbeProvider where
  | probeGetState
  | prev (n : Nat)
deriving DecidableEq

/-- probe_state_t: a probe sample. -/
structure probe_state_t where
  connected : Bool
  triggered : Bool
deriving DecidableEq

/-- probe_connected_flags_t: the arming-source bit union (bit order of the
C bitfield: toggle, mcode, ext_pin, t99; 4 reserved bits are zero). -/
structure probe_connected_flags_t where
  toggle : Bool
  mcode : Bool
  ext_pin : Bool
  t99 : Bool
deriving DecidableEq

/-- The `value` view of the probe_connected_flags_t union. -/
def probe_connected_flags_t.value (f : probe_connected_flags_t) : Nat :=
  f.toggle.toNat + 2 * f.mcode.toNat + 4 * f.ext_pin.toNat + 8 * f.t99.toNat

/-- probe_protect_flags_t: the persisted configuration bit union
(bit order: invert, hardlimits, ext_pin, ext_pin_inv, tool_pin, tool_pin_inv). -/
structure probe_protect_flags_t where
  invert : Bool
  hardlimits : Bool
  ext_pin : Bool
  ext_pin_inv : Bool
  tool_pin : Bool
  tool_pin_inv : Bool
deriving DecidableEq

/-- probe_protect_settings_t: the persisted configuration struct.
Port indices are uint8 values (0..255). -/
structure probe_protect_settings_t where
  protect_port : Nat
  tool_port : Nat
  flags : probe_protect_flags_t
deriving DecidableEq

/-! ## Stepper-pulse guard (on_pulse_start, C1) -/

/-- Outcome of one on_pulse_start invocation: what was enqueued, what was
reported, and which handlers received the pulse (in order). -/
structure PulseOutcome where
  enqueued : List RTCommand
  messages : List Msg
  forwarded : List StepHandler
deriving DecidableEq

/-- on_pulse_start: reads the current probe sample; on triggered or not
connected it enqueues CMD_RESET and reports a warning; then (in the source,
unconditionally) forwards the pulse to the saved previous handler if that
pointer is non-null. -/
def on_pulse_start (stepper_pulse_start : Option StepHandler)
    (probe : probe_state_t) : PulseOutcome :=
  let alarm := probe.triggered || !probe.connected
  { enqueued := if alarm then [RTCommand.reset] else []
    messages := if alarm then [⟨"PROBE PROTECTED!", Severity.warning⟩] else []
    forwarded :=
      match stepper_pulse_start with
      | some h => [h]
      | none => [] }

/-! ## Spindle guard (onSpindleSetState, C2) -/

/-- Outcome of one onSpindleSetState invocation. `forwarded_state` /
`forwarded_rpm` are the arguments passed to the previously installed
spindle set_state handler (which the source always calls). -/
structure SpindleOutcome where
  forwarded_state : Nat
  forwarded_rpm : Nat
  enqueued : List RTCommand
  messages : List Msg
deriving DecidableEq

/-- onSpindleSetState: if any probe_connected bit is set and the requested
spindle state is non-zero, zero the state, enqueue CMD_RESET and warn;
always forward (the possibly rewritten) state to the previous handler. -/
def onSpindleSetState (probe_connected : probe_connected_flags_t)
    (state : Nat) (rpm : Nat) : SpindleOutcome :=
  if probe_connected.value ≠ 0 ∧ state ≠ 0 then
    { forwarded_state := 0
      forwarded_rpm := rpm
      enqueued := [RTCommand.reset]
      messages := [⟨"PROBE IS IN SPINDLE!", Severity.warning⟩] }
  else
    { forwarded_state := state
      forwarded_rpm := rpm
      enqueued := []
      messages := [] }

/-! ## Pulse-guard installation (protection_on / protection_off, C10) -/

/-- The two function-pointer slots involved in arming: the live
hal.stepper.pulse_start slot and the static stepper_pulse_start snapshot
(NULL modelled as none). -/
structure ProtState where
  hal_pulse_start : Option StepHandler
  stepper_pulse_start : Option StepHandler
deriving DecidableEq

/-- protection_on: snapshot the live handler, install the guard. -/
def protection_on (s : ProtState) : ProtState :=
  { s with
    stepper_pulse_start := s.hal_pulse_start
    hal_pulse_start := some StepHandler.onPulseStart }

/-- protection_off: if a snapshot is saved, reinstall it and clear the
snapshot; otherwise do nothing. -/
def protection_off (s : ProtState) : ProtState :=
  match s.stepper_pulse_start with
  | some h => { s with hal_pulse_start := some h, stepper_pulse_start := none }
  | none => s

/-! ## Arming-source updates and deferred toggle processing (C3, C5, C6) -/

/-- The flag update performed by on_probe_connected_toggle: when the
external-pin feature is configured, re-read the pin and store it in
ext_pin (inverted when so configured); otherwise leave the flags alone. -/
def toggle_update_flags (cfg : probe_protect_flags_t) (pin : Bool)
    (pc : probe_connected_flags_t) : probe_connected_flags_t :=
  if cfg.ext_pin then
    let v := pin
    let v := if cfg.ext_pin_inv then !v else v
    { pc with ext_pin := v }
  else pc

/-- State of the interlock machine: the arming-source flags, the two pulse
handler slots, and the number of CMD_PROBE_CONNECTED_TOGGLE requests
enqueued but not yet processed (informational report_message calls in
on_probe_connected_toggle are omitted; no claim concerns them). -/
structure InterlockState where
  probe_connected : probe_connected_flags_t
  prot : ProtState
  pending_toggles : Nat
deriving DecidableEq

/-- on_probe_connected_toggle: refresh ext_pin from the pin, then arm
(protection_on) when any source bit is set, else disarm (protection_off). -/
def on_probe_connected_toggle (cfg : probe_protect_flags_t) (pin : Bool)
    (s : InterlockState) : InterlockState :=
  let pc := toggle_update_flags cfg pin s.probe_connected
  { s with
    probe_connected := pc
    prot := if pc.value ≠ 0 then protection_on s.prot else protection_off s.prot }

/-- The interlock is armed exactly when the plugin's guard occupies the
live hal.stepper.pulse_start slot. -/
def InterlockState.armed (s : InterlockState) : Bool :=
  s.prot.hal_pulse_start = some StepHandler.onPulseStart

/-- An arming-source update event. toolSelected and toggleRequest carry
the external pin level that hal.port.wait_on_input would return during
their toggle processing. -/
inductive InterlockOp where
  | m401 (pin : Bool)
  | m402 (pin : Bool)
  | toolSelected (tool_id : Nat) (pin : Bool)
  | toggleRequest (pin : Bool)
deriving DecidableEq

/-- One step of the interlock machine. m401/m402 only set/clear the mcode
bit and enqueue a deferred toggle request (mcode_execute); toolSelected
sets t99 from the tool id and runs the toggle processing synchronously
(onToolSelected); toggleRequest is the main loop processing one queued or
pin-edge CMD_PROBE_CONNECTED_TOGGLE. -/
def interlock_step (cfg : probe_protect_flags_t) (s : InterlockState) :
    InterlockOp → InterlockState
  | InterlockOp.m401 _ =>
    if !s.probe_connected.mcode then
      { s with
        probe_connected := { s.probe_connected with mcode := true }
        pending_toggles := s.pending_toggles + 1 }
    else s
  | InterlockOp.m402 _ =>
    if s.probe_connected.mcode then
      { s with
        probe_connected := { s.probe_connected with mcode := false }
        pending_toggles := s.pending_toggles + 1 }
    else s
  | InterlockOp.toolSelected tool_id pin =>
    on_probe_connected_toggle cfg pin
      { s with probe_connected := { s.probe_connected with t99 := tool_id == 99 } }
  | InterlockOp.toggleRequest pin =>
    { on_probe_connected_toggle cfg pin s with
      pending_toggles := s.pending_toggles - 1 }

/-- Run a sequence of arming-source updates. -/
def interlock_run (cfg : probe_protect_flags_t) (s : InterlockState)
    (ops : List InterlockOp) : InterlockState :=
  ops.foldl (interlock_step cfg) s

/-- State at probe_protect_init: probe_connected.value = 0, the core's
pulse handler live, no snapshot, empty queue. -/
def interlock_init : InterlockState :=
  { probe_connected := ⟨false, false, false, false⟩
    prot := ⟨some (StepHandler.prev 0), none⟩
    pending_toggles := 0 }

/-! ## Command processor (mcode_execute, C5) -/

/-- Outcome of one mcode_execute invocation: resulting mcode bit, enqueued
realtime commands, reported messages, total delay (ms), and whether the
block was forwarded to the previously saved user_mcode.execute. -/
structure McodeOutcome where
  mcode : Bool
  enqueued : List RTCommand
  messages : List Msg
  delay_ms : Nat
  forwarded : Bool
deriving DecidableEq

/-- RELAY_DEBOUNCE (ms). -/
def RELAY_DEBOUNCE : Nat := 50

/-- mcode_execute: in check mode the switch is skipped (handled stays true,
nothing is forwarded). M401 sets the mcode bit, enqueues a toggle request
and waits the settle delay unless the bit is already set, in which case it
only warns; M402 is symmetric; any other code is forwarded. -/
def mcode_execute (check_mode : Bool) (user_mcode : Nat) (mcode : Bool) :
    McodeOutcome :=
  if check_mode then
    { mcode := mcode, enqueued := [], messages := [], delay_ms := 0, forwarded := false }
  else if user_mcode = 401 then
    if !mcode then
      { mcode := true
        enqueued := [RTCommand.probeConnectedToggle]
        messages := []
        delay_ms := RELAY_DEBOUNCE
        forwarded := false }
    else
      { mcode := mcode
        enqueued := []
        messages := [⟨"Probe connected signal already asserted!", Severity.warning⟩]
        delay_ms := 0
        forwarded := false }
  else if user_mcode = 402 then
    if mcode then
      { mcode := false
        enqueued := [RTCommand.probeConnectedToggle]
        messages := []
        delay_ms := RELAY_DEBOUNCE
        forwarded := false }
    else
      { mcode := mcode
        enqueued := []
        messages := [⟨"Probe connected signal not asserted!", Severity.warning⟩]
        delay_ms := 0
        forwarded := false }
  else
    { mcode := mcode, enqueued := [], messages := [], delay_ms := 0, forwarded := true }

/-! ## Tool selection (onToolSelected, C6) -/

/-- The arming-flag effect of onToolSelected: set t99 from the tool id,
then run on_probe_connected_toggle's flag update (the synchronous toggle
processing re-reads the external pin when that feature is configured). -/
def onToolSelected_flags (cfg : probe_protect_flags_t) (pin : Bool)
    (tool_id : Nat) (pc : probe_connected_flags_t) : probe_connected_flags_t :=
  toggle_update_flags cfg pin { pc with t99 := tool_id == 99 }

/-! ## Settings load / restore (plugin_settings_load, plugin_settings_restore; C4, C9) -/

/-- plugin_settings_restore: both port defaults come from
hal.port.num_digital_out (the digital OUTPUT count, as written in the
source), all flag bits are zeroed, and the struct is written to NVS
(returned Bool). Port fields are uint8, so the C expression
num_digital_out - 1 is taken mod 256. -/
def plugin_settings_restore (num_digital_out : Nat) :
    probe_protect_settings_t × Bool :=
  (⟨if num_digital_out ≠ 0 then (num_digital_out + 255) % 256 else 0,
    if num_digital_out ≠ 0 then (num_digital_out + 255) % 256 else 0,
    ⟨false, false, false, false, false, false⟩⟩,
   true)

/-- The sanity-check clamp in plugin_settings_load (NVS read succeeded;
port claiming and interrupt registration are external and not modelled).
protect_port ≥ n_ports becomes n_ports - 1 and tool_port ≥ n_ports becomes
n_ports - 2, both computed in C int arithmetic then truncated to uint8,
i.e. mod 256. -/
def plugin_settings_load (stored : probe_protect_settings_t) (n_ports : Nat) :
    probe_protect_settings_t :=
  let p := if n_ports ≤ stored.protect_port then (n_ports + 255) % 256
           else stored.protect_port
  let t := if n_ports ≤ stored.tool_port then (n_ports + 254) % 256
           else stored.tool_port
  { stored with protect_port := p, tool_port := t }

/-! ## Fixture probing sequencer and reset (probe_fixture, probe_completed, probe_reset; C7, C8) -/

/-- The machine state touched by the fixture sequencer and by reset:
probe polarity and limit-enable slots, the load-time polarity snapshot
nvs_invert_probe_pin, the probe-state provider slots, the pulse-guard
slots, and the arming-source flags. -/
structure MachineState where
  probe_connected : probe_connected_flags_t
  invert_probe_pin : Bool        -- settings.probe.invert_probe_pin
  limits_hard_enabled : Bool     -- what hal.limits.enable last set
  settings_hard_enabled : Bool   -- settings.limits.flags.hard_enabled
  nvs_invert_probe_pin : Bool    -- snapshot taken in plugin_settings_load
  hal_probe_get_state : ProbeProvider  -- hal.probe.get_state
  probe_get_state : Option ProbeProvider  -- static saved provider (NULL = none)
  prot : ProtState
deriving DecidableEq

/-- probe_fixture for a call with a tool context (tool != NULL): set
polarity from the load-time snapshot if configured, redirect the probe
provider if configured (saving the live one), force hard limits on if
configured and not already enabled by settings, then delay. With no tool
context nothing is changed. The forwarding to the previous
on_probe_fixture delegate happens after this state change. -/
def probe_fixture (cfg : probe_protect_flags_t) (tool_present : Bool)
    (s : MachineState) : MachineState :=
  if tool_present then
    let s1 := if cfg.invert then { s with invert_probe_pin := !s.nvs_invert_probe_pin }
              else s
    let s2 := if cfg.tool_pin then
                { s1 with
                  probe_get_state := some s1.hal_probe_get_state
                  hal_probe_get_state := ProbeProvider.probeGetState }
              else s1
    if !s.settings_hard_enabled && cfg.hardlimits then
      { s2 with limits_hard_enabled := true }
    else s2
  else s

/-- probe_completed: re-arm, restore polarity from the load-time snapshot,
restore hard limits from the settings flag, and un-redirect the probe
provider if redirected. The previous on_probe_completed delegate is
invoked after all of this, so it observes the returned state. -/
def probe_completed (s : MachineState) : MachineState :=
  let s1 := { s with prot := protection_on s.prot }
  let s2 := { s1 with invert_probe_pin := s1.nvs_invert_probe_pin }
  let s3 := { s2 with limits_hard_enabled := s2.settings_hard_enabled }
  match s3.probe_get_state with
  | some p => { s3 with hal_probe_get_state := p, probe_get_state := none }
  | none => s3

/-- Outcome of probe_reset: the new state plus whether the saved
driver_reset was forwarded to (the source calls it unconditionally). -/
structure ResetOutcome where
  state : MachineState
  driver_reset_forwarded : Bool
deriving DecidableEq

/-- probe_reset: restore polarity from the load-time snapshot and hard
limits from the settings flag; probe_connected is deliberately left alone
(the source comments that it is best for it to survive reset); then
forward to the saved driver_reset. -/
def probe_reset (s : MachineState) : ResetOutcome :=
  { state :=
      { s with
        invert_probe_pin := s.nvs_invert_probe_pin
        limits_hard_enabled := s.settings_hard_enabled }
    driver_reset_forwarded := true }

/-- A sequence of arm (true) / disarm (false) calls applied in order. -/
def protection_run (s : ProtState) (ops : List Bool) : ProtState :=
  ops.foldl (fun t b => if b then protection_on t else protection_off t) s

/-! ## Theorems -/

/-- Claim C1, counterexample: with the interlock armed (previous handler
saved as prev 0) and a sample reading triggered = true, the code enqueues
one emergency stop but still forwards the pulse to the previous handler,
so the claimed "zero pulses forwarded" is false at this input. -/
theorem claim1_cex :
    (on_pulse_start (some (StepHandler.prev 0)) ⟨true, true⟩).enqueued
      = [RTCommand.reset] ∧
    (on_pulse_start (some (StepHandler.prev 0)) ⟨true, true⟩).forwarded
      = [StepHandler.prev 0] ∧
    (on_pulse_start (some (StepHandler.prev 0)) ⟨true, true⟩).forwarded ≠ [] := by
  decide

/-- Claim C1 as amended: while armed (a previous handler is saved), a
stepper-pulse request whose sample reads triggered = true or
connected = false enqueues exactly one emergency stop and one warning but
the pulse is nevertheless forwarded exactly once to the previously
installed handler; any other request is forwarded unchanged with nothing
enqueued. -/
theorem claim1_thm (hh : StepHandler) (p : probe_state_t) :
    (on_pulse_start (some hh) p).forwarded = [hh] ∧
    (on_pulse_start (some hh) p).enqueued
      = (if p.triggered || !p.connected then [RTCommand.reset] else []) ∧
    (on_pulse_start (some hh) p).messages
      = (if p.triggered || !p.connected then
           [⟨"PROBE PROTECTED!", Severity.warning⟩] else []) := by
  refine ⟨rfl, ?_, ?_⟩ <;> simp [on_pulse_start]

/-- Claim C2: while any arming-source bit is set and the requested spindle
state is non-zero, the previous spindle handler receives state zero (and
the unchanged rpm), exactly one emergency stop is enqueued and one warning
reported; every other request is forwarded unmodified with nothing
enqueued. -/
theorem claim2_thm (pc : probe_connected_flags_t) (state rpm : Nat) :
    (pc.value ≠ 0 → state ≠ 0 →
      onSpindleSetState pc state rpm =
        ⟨0, rpm, [RTCommand.reset], [⟨"PROBE IS IN SPINDLE!", Severity.warning⟩]⟩) ∧
    (pc.value = 0 ∨ state = 0 →
      onSpindleSetState pc state rpm = ⟨state, rpm, [], []⟩) := by
  refine ⟨fun h1 h2 => ?_, fun h => ?_⟩
  · simp [onSpindleSetState, h1, h2]
  · rcases h with h | h <;> simp [onSpindleSetState, h]

/-- Claim C2 witness: the armed/non-zero branch at mcode = true,
state = 3, rpm = 100, and the disarmed branch at all sources false. -/
theorem claim2_wit :
    onSpindleSetState ⟨false, true, false, false⟩ 3 100 =
      ⟨0, 100, [RTCommand.reset], [⟨"PROBE IS IN SPINDLE!", Severity.warning⟩]⟩ ∧
    onSpindleSetState ⟨false, false, false, false⟩ 3 100 = ⟨3, 100, [], []⟩ :=
  ⟨(claim2_thm ⟨false, true, false, false⟩ 3 100).1 (by decide) (by decide),
   (claim2_thm ⟨false, false, false, false⟩ 3 100).2 (Or.inl (by decide))⟩

/-- Claim C3: evaluation at a reachable failing sequence (external-pin
feature disabled). Selecting tool 99 twice and then tool 1 leaves every
arming-source flag false yet the pulse guard still installed: the second
toolSelected re-runs protection_on while already armed, overwriting the
saved previous handler with the guard itself, so the subsequent
protection_off reinstalls the guard instead of the core handler. The
claimed invariant armed ⇔ (byExternalPin ∨ byCommand ∨ byToolId99)
is violated at the final observation point. -/
theorem claim3_thm :
    (interlock_run ⟨false, false, false, false, false, false⟩ interlock_init
        [InterlockOp.toolSelected 99 false,
         InterlockOp.toolSelected 99 false]).prot.stepper_pulse_start
      = some StepHandler.onPulseStart ∧
    (interlock_run ⟨false, false, false, false, false, false⟩ interlock_init
        [InterlockOp.toolSelected 99 false, InterlockOp.toolSelected 99 false,
         InterlockOp.toolSelected 1 false]).probe_connected
      = ⟨false, false, false, false⟩ ∧
    (interlock_run ⟨false, false, false, false, false, false⟩ interlock_init
        [InterlockOp.toolSelected 99 false, InterlockOp.toolSelected 99 false,
         InterlockOp.toolSelected 1 false]).pending_toggles = 0 ∧
    (interlock_run ⟨false, false, false, false, false, false⟩ interlock_init
        [InterlockOp.toolSelected 99 false, InterlockOp.toolSelected 99 false,
         InterlockOp.toolSelected 1 false]).armed = true := by
  decide

/-- Claim C4: evaluation at the failing input. With n_ports = 1 available
input and a stored tool-probe index 3 (out of range), the sanity check
clamps tool_port to n_ports - 2, which underflows in uint8 arithmetic to
255 — not strictly less than n_ports as the claim (and the comment's
intent) requires. -/
theorem claim4_thm :
    plugin_settings_load
        ⟨0, 3, ⟨false, false, false, false, false, false⟩⟩ 1 =
      ⟨0, 255, ⟨false, false, false, false, false, false⟩⟩ ∧
    ¬((plugin_settings_load
        ⟨0, 3, ⟨false, false, false, false, false, false⟩⟩ 1).tool_port < 1) := by
  decide

/-- Claim C5: outside check mode, M401 with byCommand already set only
warns (flag stays true, nothing enqueued, no delay); otherwise it sets the
flag, enqueues exactly one deferred toggle request and waits the settle
delay. M402 is symmetric with the "not asserted" warning when redundant. -/
theorem claim5_thm (m : Bool) :
    mcode_execute false 401 m =
      (if m then
         ⟨true, [], [⟨"Probe connected signal already asserted!", Severity.warning⟩],
          0, false⟩
       else
         ⟨true, [RTCommand.probeConnectedToggle], [], RELAY_DEBOUNCE, false⟩) ∧
    mcode_execute false 402 m =
      (if m then
         ⟨false, [RTCommand.probeConnectedToggle], [], RELAY_DEBOUNCE, false⟩
       else
         ⟨false, [], [⟨"Probe connected signal not asserted!", Severity.warning⟩],
          0, false⟩) := by
  cases m <;> exact ⟨rfl, rfl⟩

/-- Claim C6, counterexample: with the external-connected-pin feature
configured and the pin reading low, selecting tool 5 while byExternalPin
was true clears byExternalPin (the tool-selected handler re-runs the
toggle processing, which re-reads the pin), so the claim that the other
arming-source flags are unchanged by a tool-selected event is false. -/
theorem claim6_cex :
    (onToolSelected_flags ⟨false, false, true, false, false, false⟩ false 5
        ⟨false, false, true, false⟩).ext_pin = false ∧
    (⟨false, false, true, false⟩ : probe_connected_flags_t).ext_pin = true := by
  decide

/-- Claim C6 as amended: after a tool-selected event, byToolId99 is true
exactly when the tool id is 99 regardless of prior state, and byCommand
(and the unused toggle bit) are unchanged; byExternalPin is unchanged when
the external-pin feature is not configured, and otherwise is refreshed
from the external pin level (inverted when so configured). -/
theorem claim6_thm (cfg : probe_protect_flags_t) (pin : Bool) (tool_id : Nat)
    (pc : probe_connected_flags_t) :
    (onToolSelected_flags cfg pin tool_id pc).t99 = (tool_id == 99) ∧
    (onToolSelected_flags cfg pin tool_id pc).mcode = pc.mcode ∧
    (onToolSelected_flags cfg pin tool_id pc).toggle = pc.toggle ∧
    (onToolSelected_flags cfg pin tool_id pc).ext_pin =
      (if cfg.ext_pin then (if cfg.ext_pin_inv then !pin else pin)
       else pc.ext_pin) := by
  unfold onToolSelected_flags toggle_update_flags
  split_ifs <;> simp_all

/-- Claim C7, counterexample: the polarity snapshot is taken at settings
load (nvs_invert_probe_pin), not at fixture-probe begin. Begin with
polarity true but a load-time snapshot of false (all four fixture flags
off, so begin changes nothing): the end sequence restores polarity to the
load-time false, not to the pre-begin true, so the claimed bit-for-bit
equality with the pre-begin value is false at this input. -/
theorem claim7_cex :
    (probe_completed (probe_fixture ⟨false, false, false, false, false, false⟩ true
        ⟨⟨false, false, false, false⟩, true, false, false, false,
         ProbeProvider.prev 0, none,
         ⟨some (StepHandler.prev 0), none⟩⟩)).invert_probe_pin = false ∧
    (⟨⟨false, false, false, false⟩, true, false, false, false,
      ProbeProvider.prev 0, none,
      ⟨some (StepHandler.prev 0), none⟩⟩ : MachineState).invert_probe_pin
      = true := by
  decide

/-- Claim C7 as amended: the end sequence restores polarity to the
snapshot taken at settings load and hard-limit enablement to the stored
hard-limit setting; when the pre-begin state matches those nominal values
(and no redirection is live, the sequencer not being re-entrant), a
complete begin/end fixture sequence restores polarity and hard-limit
enablement bit-for-bit to their pre-begin values for every combination of
the four fixture-related configuration flags, and the redirected
probe-state provider, if installed, is uninstalled with the primary
provider back in place in the state the previous probe-completed delegate
observes. -/
theorem claim7_thm (cfg : probe_protect_flags_t) (s : MachineState)
    (hinv : s.invert_probe_pin = s.nvs_invert_probe_pin)
    (hlim : s.limits_hard_enabled = s.settings_hard_enabled)
    (hred : s.probe_get_state = none) :
    (probe_completed (probe_fixture cfg true s)).invert_probe_pin
      = s.invert_probe_pin ∧
    (probe_completed (probe_fixture cfg true s)).limits_hard_enabled
      = s.limits_hard_enabled ∧
    (probe_completed (probe_fixture cfg true s)).probe_get_state = none ∧
    (probe_completed (probe_fixture cfg true s)).hal_probe_get_state
      = s.hal_probe_get_state := by
  rcases s with ⟨pc, inv, lim, shard, nvs, halp, pgs, prot⟩
  simp only at hinv hlim hred
  subst hinv hlim hred
  rcases cfg with ⟨ci, ch, ce, cei, ct, cti⟩
  cases ci <;> cases ch <;> cases ct <;> cases lim <;>
    simp [probe_fixture, probe_completed, protection_on]

/-- Claim C7 witness: invert, hard-limit and alternate-pin flags all set,
pre-begin polarity equal to the load-time snapshot (false), hard limits
disabled in settings and in fact, provider prev 7, no live redirection. -/
theorem claim7_wit :
    (probe_completed (probe_fixture ⟨true, true, false, false, true, false⟩ true
        ⟨⟨false, false, false, false⟩, false, false, false, false,
         ProbeProvider.prev 7, none,
         ⟨some (StepHandler.prev 0), none⟩⟩)).invert_probe_pin = false ∧
    (probe_completed (probe_fixture ⟨true, true, false, false, true, false⟩ true
        ⟨⟨false, false, false, false⟩, false, false, false, false,
         ProbeProvider.prev 7, none,
         ⟨some (StepHandler.prev 0), none⟩⟩)).limits_hard_enabled = false ∧
    (probe_completed (probe_fixture ⟨true, true, false, false, true, false⟩ true
        ⟨⟨false, false, false, false⟩, false, false, false, false,
         ProbeProvider.prev 7, none,
         ⟨some (StepHandler.prev 0), none⟩⟩)).probe_get_state = none ∧
    (probe_completed (probe_fixture ⟨true, true, false, false, true, false⟩ true
        ⟨⟨false, false, false, false⟩, false, false, false, false,
         ProbeProvider.prev 7, none,
         ⟨some (StepHandler.prev 0), none⟩⟩)).hal_probe_get_state
      = ProbeProvider.prev 7 :=
  claim7_thm ⟨true, true, false, false, true, false⟩
    ⟨⟨false, false, false, false⟩, false, false, false, false,
     ProbeProvider.prev 7, none, ⟨some (StepHandler.prev 0), none⟩⟩
    rfl rfl rfl

/-- Claim C8: a machine reset leaves all arming-source flags (and the
guard slots and the live redirection slot) unchanged, restores polarity to
the load-time snapshot and hard-limit enablement to the stored hard-limit
setting, and forwards to the previously installed reset handler. -/
theorem claim8_thm (s : MachineState) :
    (probe_reset s).state.probe_connected = s.probe_connected ∧
    (probe_reset s).state.invert_probe_pin = s.nvs_invert_probe_pin ∧
    (probe_reset s).state.limits_hard_enabled = s.settings_hard_enabled ∧
    (probe_reset s).state.prot = s.prot ∧
    (probe_reset s).state.probe_get_state = s.probe_get_state ∧
    (probe_reset s).driver_reset_forwarded = true :=
  ⟨rfl, rfl, rfl, rfl, rfl, rfl⟩

/-- Claim C9: evaluation at the failing input. Restore derives both port
defaults from hal.port.num_digital_out — the digital OUTPUT count — while
the ports being configured are digital inputs. With 8 digital outputs but
only n_ports = 2 digital inputs, restore sets both indices to 7: not the
highest available input index (1), and not even below the input count. The
flag-clearing and NVS write-back parts of the claim do hold. -/
theorem claim9_thm :
    (plugin_settings_restore 8).1.protect_port = 7 ∧
    (plugin_settings_restore 8).1.tool_port = 7 ∧
    (plugin_settings_restore 8).1.flags
      = ⟨false, false, false, false, false, false⟩ ∧
    (plugin_settings_restore 8).2 = true ∧
    ¬((plugin_settings_restore 8).1.protect_port < 2) := by
  decide

/-- One arm or disarm call keeps the live pulse-handler slot non-null:
protection_on installs the guard, and protection_off either does nothing
or reinstalls the saved (non-null) handler. -/
lemma protection_step_keeps_handler (s : ProtState) (b : Bool)
    (hs : s.hal_pulse_start.isSome = true) :
    ((if b then protection_on s else protection_off s).hal_pulse_start).isSome
      = true := by
  cases b
  · cases hsnap : s.stepper_pulse_start <;>
      simp [protection_off, hsnap, hs]
  · simp [protection_on]

/-- Along any sequence of arm/disarm calls, the live pulse-handler slot
stays non-null. -/
lemma protection_run_keeps_handler (ops : List Bool) : ∀ s : ProtState,
    s.hal_pulse_start.isSome = true →
    (protection_run s ops).hal_pulse_start.isSome = true := by
  induction ops with
  | nil => exact fun s hs => hs
  | cons b rest ih =>
    intro s hs
    exact ih _ (protection_step_keeps_handler s b hs)

/-- Claim C10: disarming with no saved snapshot changes nothing; disarming
is idempotent; disarming right after an arm that saved the live handler h
reinstalls exactly h and clears the snapshot; and along any sequence of
arm/disarm calls starting with a non-null live handler, the live
stepper-pulse handler slot is never left null. -/
theorem claim10_thm (s : ProtState) (h : StepHandler) (ops : List Bool) :
    (s.stepper_pulse_start = none → protection_off s = s) ∧
    (protection_off (protection_off s) = protection_off s) ∧
    (s.hal_pulse_start = some h →
       protection_off (protection_on s) = ⟨some h, none⟩) ∧
    (s.hal_pulse_start.isSome = true →
       (protection_run s ops).hal_pulse_start.isSome = true) := by
  refine ⟨fun hn => ?_, ?_, fun hh => ?_, fun hs => ?_⟩
  · simp [protection_off, hn]
  · cases hsnap : s.stepper_pulse_start <;>
      simp [protection_off, hsnap]
  · simp [protection_on, protection_off, hh]
  · exact protection_run_keeps_handler ops s hs

/-- Claim C10 witness: from a state with live handler prev 1 and no
snapshot — disarm is a no-op, arm then disarm restores prev 1, and the
arm/arm/disarm/disarm sequence leaves the live slot non-null. -/
theorem claim10_wit :
    (protection_off ⟨some (StepHandler.prev 1), none⟩
       = (⟨some (StepHandler.prev 1), none⟩ : ProtState)) ∧
    (protection_off (protection_on ⟨some (StepHandler.prev 1), none⟩)
       = (⟨some (StepHandler.prev 1), none⟩ : ProtState)) ∧
    ((protection_run ⟨some (StepHandler.prev 1), none⟩
        [true, true, false, false]).hal_pulse_start.isSome = true) :=
  ⟨(claim10_thm ⟨some (StepHandler.prev 1), none⟩ (StepHandler.prev 1)
      [true, true, false, false]).1 rfl,
   (claim10_thm ⟨some (StepHandler.prev 1), none⟩ (StepHandler.prev 1)
      [true, true, false, false]).2.2.1 rfl,
   (claim10_thm ⟨some (StepHandler.prev 1), none⟩ (StepHandler.prev 1)
      [true, true, false, false]).2.2.2 rfl⟩

end ProbePlugin
